import Mathlib

/-!
Verification of twitch-chat-tui (src/main.rs, src/config.rs): a shallow
embedding of the event aggregation and rendering pipeline, the line-layout
algorithm, the bounded message buffer, and the render-loop dispatch, with
theorems settling the specification's claims about them.
-/

set_option autoImplicit false

namespace TwitchChatTui

/-! ## Data model

Message types as consumed by main.rs from the twitch_irc crate: a badge is a
name/version pair; a Privmsg carries sender name, optional RGB name color,
a badge list, and the message body text. -/

/-- Badge attached to a message sender (twitch_irc Badge: name and version). -/
structure Badge where
  name : String
  version : String
deriving DecidableEq

/-- RGB color triple; components are u8 values (0..255) read unchanged. -/
structure RGBColor where
  r : Nat
  g : Nat
  b : Nat
deriving DecidableEq

/-- Sender metadata (only the display name is read by main.rs). -/
structure Sender where
  name : String
deriving DecidableEq

/-- The chat-message payload consumed by the render loop. -/
structure PrivmsgMessage where
  sender : Sender
  name_color : Option RGBColor
  badges : List Badge
  message_text : String
deriving DecidableEq

/-- Inbound protocol message: only the Privmsg variant is a chat message;
all other server messages are collapsed into one ignored variant. -/
inductive ServerMessage where
  | Privmsg (m : PrivmsgMessage)
  | OtherMsg
deriving DecidableEq

/-! ## config.rs -/

/-- Settings record from config.rs (`pub struct Config`). -/
structure Config where
  channel : String
  mod_symbol : String
  mod_symbol_width : Nat
  vip_symbol : String
  vip_symbol_width : Nat
  subscriber_symbol : String
  subscriber_symbol_width : Nat
  founder_symbol : String
  founder_symbol_width : Nat
  invert_below_brightness : Nat
  messages_buffer_size : Nat
deriving DecidableEq

/-- Built-in defaults from `impl Default for Config` in config.rs. -/
def Config.default : Config :=
  { channel := "stuck_overflow"
    mod_symbol := "🗡 "
    mod_symbol_width := 2
    vip_symbol := "💎"
    vip_symbol_width := 2
    subscriber_symbol := "🌟"
    subscriber_symbol_width := 2
    founder_symbol := "🥇"
    founder_symbol_width := 2
    invert_below_brightness := 30
    messages_buffer_size := 50 }

/-! ## Layout engine (the draw closure in main.rs) -/

/-- A terminal color as used by the draw closure (tui::style::Color). -/
inductive TuiColor where
  | Rgb (r g b : Nat)
  | Gray
deriving DecidableEq

/-- A text style: optional foreground and background colors. -/
structure Style where
  fg : Option TuiColor
  bg : Option TuiColor
deriving DecidableEq

/-- `Style::default()`: no foreground, no background. -/
def Style.default : Style := ⟨none, none⟩

/-- Luminance as computed by main.rs lines 115-118:
`0.2126 * r + 0.7152 * g + 0.00722 * b` (note the code's blue coefficient is
0.00722). Arithmetic is modelled exactly over ℚ. -/
def luminance (c : RGBColor) : ℚ :=
  2126 / 10000 * (c.r : ℚ) + 7152 / 10000 * (c.g : ℚ) + 722 / 100000 * (c.b : ℚ)

/-- Modelled from the spec: the standard relative-luminance formula
`0.2126·R + 0.7152·G + 0.0722·B` that the spec states the layout computes. -/
def specLuminance (c : RGBColor) : ℚ :=
  2126 / 10000 * (c.r : ℚ) + 7152 / 10000 * (c.g : ℚ) + 722 / 10000 * (c.b : ℚ)

/-- Sender-name style from main.rs lines 111-126: foreground set to the
name color when present; a Gray background added when the code's luminance
is strictly below 30.0; default style when no color is present. -/
def senderStyle (m : PrivmsgMessage) : Style :=
  match m.name_color with
  | some c =>
      let st : Style := ⟨some (TuiColor.Rgb c.r c.g c.b), none⟩
      if luminance c < 30 then ⟨st.fg, some TuiColor.Gray⟩ else st
  | none => Style.default

/-- Badge presence test: `m.badges.iter().any(|b| b.name == n)`. -/
def hasBadge (m : PrivmsgMessage) (n : String) : Bool :=
  m.badges.any (fun b => b.name == n)

/-- `let is_subscriber = m.badges.iter().any(|b| b.name == "subscriber")`. -/
def is_subscriber (m : PrivmsgMessage) : Bool := hasBadge m ("subscriber")

/-- `let is_founder = m.badges.iter().any(|b| b.name == "founder")`. -/
def is_founder (m : PrivmsgMessage) : Bool := hasBadge m ("founder")

/-- `let is_mod = m.badges.iter().any(|b| b.name == "moderator")`. -/
def is_mod (m : PrivmsgMessage) : Bool := hasBadge m ("moderator")

/-- `let is_vip = m.badges.iter().any(|b| b.name == "vip")`. -/
def is_vip (m : PrivmsgMessage) : Bool := hasBadge m ("vip")

/-- Prefix width from main.rs lines 133-146: sender name length + 2, plus 2
for each of subscriber/founder/moderator when present, plus 3 for vip. -/
def width_for_name (m : PrivmsgMessage) : Nat :=
  m.sender.name.length + 2
    + (if is_subscriber m then 2 else 0)
    + (if is_founder m then 2 else 0)
    + (if is_mod m then 2 else 0)
    + (if is_vip m then 3 else 0)

/-- Prefix width as the spec's words state it: sender name length + 2 + the
configured column width of every badge present in the message's badge set. -/
def specPrefixWidth (cfg : Config) (m : PrivmsgMessage) : Nat :=
  m.sender.name.length + 2
    + (if is_subscriber m then cfg.subscriber_symbol_width else 0)
    + (if is_founder m then cfg.founder_symbol_width else 0)
    + (if is_mod m then cfg.mod_symbol_width else 0)
    + (if is_vip m then cfg.vip_symbol_width else 0)

/-- main.rs line 147: `let width_for_text: usize = size.width as usize -
width_for_name;` — an unchecked usize subtraction with no clamp. An
available width below the prefix width is an arithmetic underflow (a panic
in debug builds), modelled as `none`. -/
def width_for_text (availableWidth : Nat) (m : PrivmsgMessage) : Option Nat :=
  if width_for_name m ≤ availableWidth then some (availableWidth - width_for_name m)
  else none

/-- Modelled from the spec: the remaining wrap width, clamped so that it is
treated as at least 1 when the available width is at or below the prefix. -/
def specWidthForText (availableWidth : Nat) (m : PrivmsgMessage) : Nat :=
  max (availableWidth - width_for_name m) 1

/-! ## Word wrapping

main.rs calls `textwrap::fill(&m.message_text, width_for_text)` and then
splits the result on newline characters. textwrap is an external crate, so
its behaviour is modelled from the spec. -/

/-- Splits a list of characters into maximal space-free words, accumulating
the current word reversed. -/
def splitWordsGo : List Char → List Char → List String
  | [], cur => if cur = [] then [] else [String.mk cur.reverse]
  | c :: cs, cur =>
      if c = ' ' then
        (if cur = [] then splitWordsGo cs [] else String.mk cur.reverse :: splitWordsGo cs [])
      else splitWordsGo cs (c :: cur)

/-- The whitespace-separated words of a string (empty for an empty string). -/
def splitWords (s : String) : List String := splitWordsGo s.data []

/-- Splits a character list into chunks of at most `w` characters; the fuel
argument bounds the recursion and is instantiated with the list length. -/
def chunksOfAux (w : Nat) : Nat → List Char → List (List Char)
  | _, [] => []
  | 0, cs => [cs]
  | fuel + 1, cs => cs.take w :: chunksOfAux w fuel (cs.drop w)

/-- Chunks of at most `w` characters covering the list in order. -/
def chunksOf (w : Nat) (cs : List Char) : List (List Char) :=
  chunksOfAux w cs.length cs

/-- One step of greedy line filling: append the word to the current line when
it fits in `width` columns with a separating space, otherwise finish the
current line and start a new one with the word. -/
def wrapFold (width : Nat) (acc : List String × String) (w : String) : List String × String :=
  if acc.2.isEmpty then (acc.1, w)
  else if acc.2.length + 1 + w.length ≤ width then (acc.1, acc.2 ++ " " ++ w)
  else (acc.1 ++ [acc.2], w)

/-- Modelled from the spec: `textwrap::fill` (external crate) followed by
`split('\n')` — greedy word-wrap at whitespace boundaries into lines of at
most `width` columns, hard-breaking words longer than a line, with the wrap
width treated as at least 1; an empty body yields one empty line. -/
def wrapLines (s : String) (width : Nat) : List String :=
  let pieces := (splitWords s).flatMap
    (fun w => (chunksOf (max width 1) w.data).map (fun cs => String.mk cs))
  match pieces with
  | [] => [""]
  | _ =>
      let r := pieces.foldl (wrapFold width) ([], "")
      r.1 ++ [r.2]

/-! ## Render lines (the per-message loop of the draw closure) -/

/-- A styled text span (`tui::text::Span`): `Span::raw` carries the default
style, `Span::styled` an explicit one. -/
inductive Span where
  | raw (s : String)
  | styled (s : String) (st : Style)
deriving DecidableEq

/-- The four badge spans at the start of a message's first line, main.rs
lines 155-174: mod, vip, subscriber, founder symbols (empty when absent). -/
def badgeSpans (m : PrivmsgMessage) : List Span :=
  [ (if is_mod m then Span.raw ("🖕") else Span.raw ("")),
    (if is_vip m then Span.raw ("🎟️🦀") else Span.raw ("")),
    (if is_subscriber m then Span.raw ("🦀") else Span.raw ("")),
    (if is_founder m then Span.raw ("🦄") else Span.raw ("")) ]

/-- The first rendered line of a message: badge spans, the styled sender
name, the separator, and the first wrapped body segment. -/
def firstLineSpans (m : PrivmsgMessage) (l : String) : List Span :=
  badgeSpans m ++ [Span.styled m.sender.name (senderStyle m), Span.raw (": "), Span.raw l]

/-- A run of `n` blank columns (main.rs line 182). -/
def spaces (n : Nat) : String := String.mk (List.replicate n ' ')

/-- The rendered lines of one message, main.rs lines 148-189: the first
wrapped segment gets the full prefix, every later segment is left-padded
with `width_for_name` blanks; each line is pushed to the front of a deque
(for bottom-up rendering), so the produced order is reversed. -/
def messageLines (m : PrivmsgMessage) (widthText : Nat) : List (List Span) :=
  match wrapLines m.message_text widthText with
  | [] => []
  | first :: rest =>
      (firstLineSpans m first ::
        rest.map (fun l => [Span.raw (spaces (width_for_name m)), Span.raw l])).reverse

/-! ## Message buffer (the Event::ChatMessage arm) -/

/-- Buffer insertion from main.rs lines 95-98: `messages.push_front(privmsg);
if messages.len() > cap { messages.pop_back(); }` — main.rs instantiates the
capacity with the literal 50. Stated generically in the element type. -/
def insertMessage {α : Type} (cap : Nat) (buf : List α) (m : α) : List α :=
  let buf2 := m :: buf
  if buf2.length > cap then buf2.dropLast else buf2

/-! ## Event producers and their send-failure behaviour

Each producer's reaction to the result of `tx.send(..)` is embedded as a
function of the send result; `none` models a panic (`.expect`), `some`
models the task continuing. -/

/-- Network producer, main.rs lines 37-40:
`tx2.send(Event::ChatMessage(message)).expect("sending chat message event")`
— a failed send panics the task. -/
def networkSendStep (r : Except Unit Unit) : Option Unit :=
  match r with
  | Except.ok _ => some ()
  | Except.error _ => none

/-- Keyboard producer, main.rs lines 52-53:
`tx.send(Event::Input(CEvent::Key(key))).expect("can send events")`
— a failed send panics the task. -/
def inputSendStep (r : Except Unit Unit) : Option Unit :=
  match r with
  | Except.ok _ => some ()
  | Except.error _ => none

/-- Tick producer, main.rs lines 57-61:
`if let Ok(_) = tx.send(Event::Render) { last_tick = Instant::now(); }`
— on a successful send the tick reference is reset to `now`; on a failed
send nothing happens and the loop continues with `lastTick` unchanged.
Returns the next tick reference, `none` would model a panic. -/
def tickSendStep (r : Except Unit Unit) (lastTick now : Nat) : Option Nat :=
  match r with
  | Except.ok _ => some now
  | Except.error _ => some lastTick

/-! ## Render loop dispatch (the `loop { match rx.recv() ... }` in main) -/

/-- Key codes as matched by main.rs: a character key or any other key. -/
inductive KeyCode where
  | Char (c : Char)
  | Other
deriving DecidableEq

/-- Keyboard modifier set (crossterm KeyModifiers). -/
structure KeyModifiers where
  control : Bool
  shift : Bool
  alt : Bool
deriving DecidableEq

/-- `KeyModifiers::CONTROL`. -/
def KeyModifiers.CONTROL : KeyModifiers := ⟨true, false, false⟩

/-- `KeyModifiers::NONE`. -/
def KeyModifiers.NONE : KeyModifiers := ⟨false, false, false⟩

/-- A key press: code plus modifier set. -/
structure KeyEvent where
  code : KeyCode
  modifiers : KeyModifiers
deriving DecidableEq

/-- crossterm terminal events: a key press or any other event kind. -/
inductive CEvent where
  | Key (k : KeyEvent)
  | OtherC
deriving DecidableEq

/-- The tagged event union of main.rs. -/
inductive Event where
  | ChatMessage (m : ServerMessage)
  | Input (e : CEvent)
  | Render
deriving DecidableEq

/-- Observable outcome of one iteration of the render loop. `exited`
records the exit code and whether raw mode was disabled and the cursor
shown before exiting; `running` carries the message buffer afterwards and
whether a redraw happened (which also resets the consumer's tick clock). -/
inductive StepOutcome where
  | exited (code : Nat) (rawModeDisabled : Bool) (cursorShown : Bool)
  | running (messages : List PrivmsgMessage) (redrew : Bool)
deriving DecidableEq

/-- The redraw gate at main.rs lines 104-108: draw and reset the tick clock
exactly when the consumer's tick period has elapsed. -/
def redrawGate (messages : List PrivmsgMessage) (tickElapsed : Bool) : StepOutcome :=
  StepOutcome.running messages tickElapsed

/-- One iteration of the render loop, main.rs lines 76-209. `tickElapsed`
is the value of `last_tick.elapsed() >= tick_rate` were the redraw gate
reached. Dispatch:
the quit key Ctrl+'c' tears the terminal down and exits 0; a 'c' key with
any other modifier set falls out of the match to the redraw gate; any other
key (and a non-Privmsg server message) hits a `continue`, skipping the
gate; a Privmsg is inserted into the buffer (capacity 50) and `continue`s;
a non-key input event falls through the `if let` to the gate; Render falls
through the wildcard arm to the gate. -/
def loopStep (messages : List PrivmsgMessage) (ev : Event) (tickElapsed : Bool) : StepOutcome :=
  match ev with
  | Event.Input e =>
      match e with
      | CEvent.Key k =>
          match k.code with
          | KeyCode.Char c =>
              if c = 'c' then
                if k.modifiers = KeyModifiers.CONTROL then StepOutcome.exited 0 true true
                else redrawGate messages tickElapsed
              else StepOutcome.running messages false
          | KeyCode.Other => StepOutcome.running messages false
      | CEvent.OtherC => redrawGate messages tickElapsed
  | Event.ChatMessage msg =>
      match msg with
      | ServerMessage.Privmsg p => StepOutcome.running (insertMessage 50 messages p) false
      | ServerMessage.OtherMsg => StepOutcome.running messages false
  | Event.Render => redrawGate messages tickElapsed

/-! ## Concrete example values used by witnesses and counterexamples -/

/-- Sender "bob" with only the subscriber badge (the spec's width scenario). -/
def bobSubMsg : PrivmsgMessage := ⟨⟨"bob"⟩, none, [⟨"subscriber", "1"⟩], "hello world"⟩

/-- Sender "bob" with only the vip badge. -/
def bobVipMsg : PrivmsgMessage := ⟨⟨"bob"⟩, none, [⟨"vip", "1"⟩], "hello"⟩

/-- A message with an empty body. -/
def emptyBodyMsg : PrivmsgMessage := ⟨⟨"bob"⟩, none, [], ""⟩

/-- A color whose code luminance (23.2971) and standard luminance (39.867)
straddle the threshold 30. -/
def c2Color : RGBColor := ⟨0, 30, 255⟩

/-- A message carrying `c2Color` as its name color. -/
def c2Msg : PrivmsgMessage := ⟨⟨"alice"⟩, some c2Color, [], "hi"⟩

/-- A color whose code luminance is exactly 30:
0.2126·95 + 0.7152·13 + 0.00722·70 = 20.197 + 9.2976 + 0.5054 = 30. -/
def c8Color : RGBColor := ⟨95, 13, 70⟩

/-- A message carrying `c8Color` as its name color. -/
def c8Msg : PrivmsgMessage := ⟨⟨"carol"⟩, some c8Color, [], "hi"⟩

/-- The subscriber badge value used in badge-set permutation witnesses. -/
def subBadge : Badge := ⟨"subscriber", "1"⟩

/-- The vip badge value used in badge-set permutation witnesses. -/
def vipBadge : Badge := ⟨"vip", "1"⟩

/-- A message carrying both the subscriber and the vip badge. -/
def permMsg : PrivmsgMessage := ⟨⟨"bob"⟩, none, [subBadge, vipBadge], "hi"⟩

/-! ## Helper lemmas -/

/-- `List.any` is invariant under permutation of the list. -/
theorem any_eq_of_perm {α : Type} {l₁ l₂ : List α} (h : l₁.Perm l₂) (p : α → Bool) :
    l₁.any p = l₂.any p := by
  induction h with
  | nil => rfl
  | cons a _ ih => simp [List.any_cons, ih]
  | swap x y l => simp [List.any_cons, Bool.or_left_comm]
  | trans _ _ ih₁ ih₂ => exact ih₁.trans ih₂

/-- Duplicating an element already in the list leaves `List.any` unchanged. -/
theorem any_cons_of_mem {α : Type} {l : List α} {b : α} (hb : b ∈ l) (p : α → Bool) :
    (b :: l).any p = l.any p := by
  cases hpb : p b with
  | false => simp [List.any_cons, hpb]
  | true =>
    simp only [List.any_cons, hpb, Bool.true_or]
    exact (List.any_eq_true.mpr ⟨b, hb, hpb⟩).symm

/-- The prefix width and the badge spans depend only on the badge-presence
tests: two badge lists giving the same `hasBadge` answers give the same
width and spans. -/
theorem width_spans_eq_of_badges {m : PrivmsgMessage} {l2 : List Badge}
    (h : ∀ s : String, hasBadge {m with badges := l2} s = hasBadge m s) :
    width_for_name {m with badges := l2} = width_for_name m ∧
      badgeSpans {m with badges := l2} = badgeSpans m := by
  have hs := h ("subscriber")
  have hf := h ("founder")
  have hm := h ("moderator")
  have hv := h ("vip")
  constructor
  · simp [width_for_name, is_subscriber, is_founder, is_mod, is_vip, hs, hf, hm, hv]
  · simp [badgeSpans, is_subscriber, is_founder, is_mod, is_vip, hs, hf, hm, hv]

/-- Evaluating `senderStyle` once the name color is known. -/
theorem senderStyle_eq (m : PrivmsgMessage) (c : RGBColor) (hc : m.name_color = some c) :
    senderStyle m =
      if luminance c < 30 then ⟨some (TuiColor.Rgb c.r c.g c.b), some TuiColor.Gray⟩
      else ⟨some (TuiColor.Rgb c.r c.g c.b), none⟩ := by
  unfold senderStyle
  rw [hc]

/-- Folding insertions over a buffer that satisfies the capacity invariant
keeps, of the inserted prefix and the old contents, the first `C` elements. -/
theorem foldl_insertMessage {α : Type} (C : Nat) :
    ∀ (ms b : List α), b.length ≤ C →
      ms.foldl (insertMessage C) b = ((ms.reverse ++ b).take C) := by
  intro ms
  induction ms with
  | nil =>
    intro b hb
    simp [List.take_of_length_le hb]
  | cons m ms ih =>
    intro b hb
    have hfold : (m :: ms).foldl (insertMessage C) b
        = ms.foldl (insertMessage C) (insertMessage C b m) := rfl
    rw [hfold]
    by_cases hlen : (m :: b).length > C
    · have hbC : b.length = C := by
        simp only [List.length_cons] at hlen
        omega
      have hins : insertMessage C b m = (m :: b).dropLast := by
        show (if (m :: b).length > C then (m :: b).dropLast else (m :: b)) = (m :: b).dropLast
        rw [if_pos hlen]
      have hdl : (m :: b).dropLast = (m :: b).take C := by
        rw [List.dropLast_eq_take]
        simp [List.length_cons, hbC]
      have hlen2 : ((m :: b).dropLast).length ≤ C := by
        rw [hdl]
        simp [List.length_take]
      rw [hins, ih _ hlen2, hdl, List.reverse_cons, List.append_assoc,
        List.take_append_eq_append_take, List.take_append_eq_append_take]
      congr 1
      rw [List.take_take]
      congr 1
      exact min_eq_left (Nat.sub_le C ms.reverse.length)
    · have hins : insertMessage C b m = m :: b := by
        show (if (m :: b).length > C then (m :: b).dropLast else (m :: b)) = m :: b
        rw [if_neg hlen]
      have hlen2 : (m :: b).length ≤ C := by
        simp only [List.length_cons] at hlen ⊢
        omega
      rw [hins, ih _ hlen2, List.reverse_cons, List.append_assoc]
      rfl

/-! ## Claims -/

/-- C1 (claim as stated is false): for "bob" with only the vip badge the
code's prefix width is 3+2+3 = 8, while the spec's formula with the
configured vip column width (2) gives 7. -/
theorem c1_counterexample :
    width_for_name bobVipMsg = 8 ∧ specPrefixWidth Config.default bobVipMsg = 7 ∧
      width_for_name bobVipMsg ≠ specPrefixWidth Config.default bobVipMsg := by
  decide

/-- C1 (amended): the prefix width is the sender-name length plus 2 plus,
for each present badge, the configured column width for subscriber, founder
and moderator, but a hardcoded 3 (not the configured 2) for vip; in
particular it agrees with the configured-width formula whenever the vip
badge is absent, and "bob" with only the subscriber badge gives 7. -/
theorem c1_prefix_width_amended :
    (∀ m : PrivmsgMessage,
        width_for_name m = m.sender.name.length + 2
          + (if is_subscriber m then Config.default.subscriber_symbol_width else 0)
          + (if is_founder m then Config.default.founder_symbol_width else 0)
          + (if is_mod m then Config.default.mod_symbol_width else 0)
          + (if is_vip m then 3 else 0)) ∧
      (∀ m : PrivmsgMessage, is_vip m = false →
          width_for_name m = specPrefixWidth Config.default m) ∧
      width_for_name bobSubMsg = 7 := by
  refine ⟨fun m => rfl, ?_, by decide⟩
  intro m hv
  simp [width_for_name, specPrefixWidth, Config.default, hv]

/-- C1 witness: "bob" with only the subscriber badge has no vip badge, its
width agrees with the configured-width formula, and equals 7. -/
theorem c1_witness :
    is_vip bobSubMsg = false ∧
      width_for_name bobSubMsg = specPrefixWidth Config.default bobSubMsg ∧
      width_for_name bobSubMsg = 7 :=
  ⟨by decide, c1_prefix_width_amended.2.1 bobSubMsg (by decide), c1_prefix_width_amended.2.2⟩

/-- C2 (code bug): for the color (0, 30, 255) the code's luminance — with
its blue coefficient 0.00722 — is 23.2971 < 30, so a Gray background is
applied, while the claimed standard formula (blue coefficient 0.0722)
gives 39.867, which is not below the threshold, so no background should be
applied. -/
theorem c2_luminance_code_bug :
    luminance c2Color = 232971 / 10000 ∧ luminance c2Color < 30 ∧
      (senderStyle c2Msg).bg = some TuiColor.Gray ∧
      specLuminance c2Color = 39867 / 1000 ∧ ¬ specLuminance c2Color < 30 := by
  have h1 : luminance c2Color = 232971 / 10000 := by norm_num [luminance, c2Color]
  have h2 : luminance c2Color < 30 := by
    rw [h1]
    norm_num
  have h3 : (senderStyle c2Msg).bg = some TuiColor.Gray := by
    rw [senderStyle_eq c2Msg c2Color rfl]
    simp [h2]
  exact ⟨h1, h2, h3, by norm_num [specLuminance, c2Color], by norm_num [specLuminance, c2Color]⟩

/-- C3 (code bug): for sender "bob" with the subscriber badge the prefix
width is 7; at available width 5 the code's unchecked usize subtraction
underflows (modelled as `none`) instead of clamping the remaining wrap
width to at least 1 as the spec requires, while at available width 20 it
yields 13. -/
theorem c3_width_underflow :
    width_for_name bobSubMsg = 7 ∧ width_for_text 5 bobSubMsg = none ∧
      specWidthForText 5 bobSubMsg = 1 ∧ width_for_text 20 bobSubMsg = some 13 := by
  decide

/-- C4 (claim as stated is false): the tick producer does not treat a failed
send of the Render event as fatal — it continues with the tick reference
unchanged instead of panicking. -/
theorem c4_counterexample :
    tickSendStep (Except.error ()) 0 1 = some 0 ∧
      tickSendStep (Except.error ()) 0 1 ≠ none := by
  decide

/-- C4 (amended): the network-message and keyboard-input producers treat a
failed enqueue as fatal (panic, modelled `none`), but the tick producer
silently discards a failed Render send and keeps running, resetting its
tick reference only on a successful send. -/
theorem c4_send_failure_amended :
    networkSendStep (Except.error ()) = none ∧
      inputSendStep (Except.error ()) = none ∧
      (∀ lastTick now : Nat, tickSendStep (Except.error ()) lastTick now = some lastTick) ∧
      (∀ lastTick now : Nat, tickSendStep (Except.ok ()) lastTick now = some now) :=
  ⟨rfl, rfl, fun _ _ => rfl, fun _ _ => rfl⟩

/-- C5: for any capacity C, starting from any buffer within capacity, after
more than C insertions the buffer holds exactly the C most recently
inserted messages, newest first. -/
theorem c5_buffer_eviction {α : Type} (C : Nat) (ms b : List α)
    (hb : b.length ≤ C) (hN : C < ms.length) :
    ms.foldl (insertMessage C) b = ms.reverse.take C := by
  rw [foldl_insertMessage C ms b hb]
  exact List.take_append_of_le_length (by simpa using le_of_lt hN)

/-- C5 witness: capacity 2, inserting "a", "b", "c" into an empty buffer
leaves ["c", "b"]. -/
theorem c5_witness :
    ([] : List String).length ≤ 2 ∧ 2 < (["a", "b", "c"] : List String).length ∧
      (["a", "b", "c"] : List String).foldl (insertMessage 2) [] = ["c", "b"] := by
  refine ⟨by decide, by decide, ?_⟩
  rw [c5_buffer_eviction 2 (["a", "b", "c"] : List String) [] (by decide) (by decide)]
  decide

/-- C6 (claim as stated is false): a KeyPress of 'c' without the Control
modifier is not simply ignored — it falls through to the redraw gate, and
with the tick period elapsed a redraw happens (resetting the consumer's
tick clock), so the loop state is not left unchanged. -/
theorem c6_counterexample :
    loopStep [] (Event.Input (CEvent.Key ⟨KeyCode.Char 'c', KeyModifiers.NONE⟩)) true
        = StepOutcome.running [] true ∧
      loopStep [] (Event.Input (CEvent.Key ⟨KeyCode.Char 'c', KeyModifiers.NONE⟩)) true
        ≠ StepOutcome.running [] false := by
  decide

/-- C6 (amended): Control+'c' restores normal input mode and cursor
visibility and exits with code 0; a KeyPress whose code is not the
character 'c' leaves the loop Running with the buffer unchanged and no
redraw; a KeyPress of 'c' with any other modifier set leaves the buffer
unchanged but falls through to the redraw gate, redrawing exactly when the
tick period has elapsed. -/
theorem c6_quit_key_amended :
    (∀ (msgs : List PrivmsgMessage) (e : Bool),
        loopStep msgs (Event.Input (CEvent.Key ⟨KeyCode.Char 'c', KeyModifiers.CONTROL⟩)) e
          = StepOutcome.exited 0 true true) ∧
      (∀ (msgs : List PrivmsgMessage) (e : Bool) (k : KeyEvent),
          k.code ≠ KeyCode.Char 'c' →
            loopStep msgs (Event.Input (CEvent.Key k)) e = StepOutcome.running msgs false) ∧
      (∀ (msgs : List PrivmsgMessage) (e : Bool) (mods : KeyModifiers),
          mods ≠ KeyModifiers.CONTROL →
            loopStep msgs (Event.Input (CEvent.Key ⟨KeyCode.Char 'c', mods⟩)) e
              = StepOutcome.running msgs e) := by
  refine ⟨fun msgs e => rfl, ?_, ?_⟩
  · intro msgs e k hk
    obtain ⟨code, mods⟩ := k
    cases code with
    | Char d =>
      have hd : d ≠ 'c' := by
        intro h
        exact hk (by rw [h])
      simp [loopStep, hd]
    | Other => rfl
  · intro msgs e mods hm
    simp [loopStep, redrawGate, hm]

/-- C6 witness: the quit key exits 0 with teardown; the Other key is
ignored; plain 'c' with no modifiers and the tick period not elapsed leaves
everything unchanged. -/
theorem c6_witness :
    loopStep [] (Event.Input (CEvent.Key ⟨KeyCode.Char 'c', KeyModifiers.CONTROL⟩)) true
        = StepOutcome.exited 0 true true ∧
      (KeyCode.Other ≠ KeyCode.Char 'c' ∧
        loopStep [] (Event.Input (CEvent.Key ⟨KeyCode.Other, KeyModifiers.NONE⟩)) true
          = StepOutcome.running [] false) ∧
      (KeyModifiers.NONE ≠ KeyModifiers.CONTROL ∧
        loopStep [] (Event.Input (CEvent.Key ⟨KeyCode.Char 'c', KeyModifiers.NONE⟩)) false
          = StepOutcome.running [] false) :=
  ⟨c6_quit_key_amended.1 [] true,
    ⟨by decide, c6_quit_key_amended.2.1 [] true ⟨KeyCode.Other, KeyModifiers.NONE⟩ (by decide)⟩,
    ⟨by decide, c6_quit_key_amended.2.2 [] false KeyModifiers.NONE (by decide)⟩⟩

/-- C7: a message with an empty body yields exactly one rendered line,
holding only the badge spans, the styled sender name, the separator, and an
empty body segment. -/
theorem c7_empty_body_single_line (m : PrivmsgMessage) (w : Nat)
    (h : m.message_text = "") :
    messageLines m w =
      [badgeSpans m ++ [Span.styled m.sender.name (senderStyle m), Span.raw (": "),
        Span.raw ("")]] := by
  unfold messageLines
  rw [h]
  have hw : wrapLines ("") w = [""] := rfl
  rw [hw]
  rfl

/-- C7 witness: the empty-body message renders as one prefix-only line. -/
theorem c7_witness :
    emptyBodyMsg.message_text = "" ∧
      messageLines emptyBodyMsg 13 =
        [badgeSpans emptyBodyMsg ++ [Span.styled emptyBodyMsg.sender.name (senderStyle emptyBodyMsg),
          Span.raw (": "), Span.raw ("")]] :=
  ⟨rfl, c7_empty_body_single_line emptyBodyMsg 13 rfl⟩

/-- C8: the background inversion triggers exactly for luminance strictly
below the threshold 30; a color whose luminance is exactly 30 gets no
contrasting background. -/
theorem c8_threshold_not_inverted (m : PrivmsgMessage) (c : RGBColor)
    (hc : m.name_color = some c) :
    ((senderStyle m).bg = some TuiColor.Gray ↔ luminance c < 30) ∧
      (luminance c = 30 → (senderStyle m).bg = none) := by
  rw [senderStyle_eq m c hc]
  by_cases hl : luminance c < 30
  · refine ⟨by simp [hl], ?_⟩
    intro h30
    rw [h30] at hl
    exact absurd hl (lt_irrefl (30 : ℚ))
  · exact ⟨by simp [hl], fun _ => by simp [hl]⟩

/-- C8 witness: the color (95, 13, 70) has code luminance exactly 30 and its
sender style carries no background. -/
theorem c8_witness :
    c8Msg.name_color = some c8Color ∧ luminance c8Color = 30 ∧
      (senderStyle c8Msg).bg = none := by
  have h30 : luminance c8Color = 30 := by norm_num [luminance, c8Color]
  exact ⟨rfl, h30, (c8_threshold_not_inverted c8Msg c8Color rfl).2 h30⟩

/-- C9: the prefix width and the badge spans are unchanged by permuting the
badge list or by duplicating a badge already present. -/
theorem c9_badge_set_invariance :
    (∀ (m : PrivmsgMessage) (l2 : List Badge), m.badges.Perm l2 →
        width_for_name {m with badges := l2} = width_for_name m ∧
          badgeSpans {m with badges := l2} = badgeSpans m) ∧
      (∀ (m : PrivmsgMessage) (b : Badge), b ∈ m.badges →
          width_for_name {m with badges := b :: m.badges} = width_for_name m ∧
            badgeSpans {m with badges := b :: m.badges} = badgeSpans m) := by
  constructor
  · intro m l2 hp
    apply width_spans_eq_of_badges
    intro s
    exact any_eq_of_perm hp.symm (fun b => b.name == s)
  · intro m b hb
    apply width_spans_eq_of_badges
    intro s
    exact any_cons_of_mem hb (fun b => b.name == s)

/-- C9 witness: swapping the subscriber and vip badges, or duplicating the
subscriber badge, changes neither the prefix width nor the badge spans. -/
theorem c9_witness :
    permMsg.badges.Perm [vipBadge, subBadge] ∧
      width_for_name {permMsg with badges := [vipBadge, subBadge]} = width_for_name permMsg ∧
      badgeSpans {permMsg with badges := [vipBadge, subBadge]} = badgeSpans permMsg ∧
      subBadge ∈ permMsg.badges ∧
      width_for_name {permMsg with badges := subBadge :: permMsg.badges} = width_for_name permMsg ∧
      badgeSpans {permMsg with badges := subBadge :: permMsg.badges} = badgeSpans permMsg := by
  have hp : permMsg.badges.Perm [vipBadge, subBadge] := List.Perm.swap vipBadge subBadge []
  have hm : subBadge ∈ permMsg.badges := by decide
  obtain ⟨h1, h2⟩ := c9_badge_set_invariance.1 permMsg [vipBadge, subBadge] hp
  obtain ⟨h3, h4⟩ := c9_badge_set_invariance.2 permMsg subBadge hm
  exact ⟨hp, h1, h2, hm, h3, h4⟩

/-- C10: a 'c' key press without the Control-only modifier set falls through
to the redraw gate and redraws exactly when the tick period has elapsed, as
does any non-key input event; any other character skips the gate entirely;
and a Tick with the period not yet elapsed causes no redraw. -/
theorem c10_redraw_fallthrough :
    (∀ (msgs : List PrivmsgMessage) (e : Bool) (mods : KeyModifiers),
        mods ≠ KeyModifiers.CONTROL →
          loopStep msgs (Event.Input (CEvent.Key ⟨KeyCode.Char 'c', mods⟩)) e
            = StepOutcome.running msgs e) ∧
      (∀ (msgs : List PrivmsgMessage) (e : Bool),
          loopStep msgs (Event.Input CEvent.OtherC) e = StepOutcome.running msgs e) ∧
      (∀ (msgs : List PrivmsgMessage) (e : Bool) (d : Char) (mods : KeyModifiers),
          d ≠ 'c' →
            loopStep msgs (Event.Input (CEvent.Key ⟨KeyCode.Char d, mods⟩)) e
              = StepOutcome.running msgs false) ∧
      (∀ msgs : List PrivmsgMessage,
          loopStep msgs Event.Render false = StepOutcome.running msgs false) := by
  refine ⟨?_, fun msgs e => rfl, ?_, fun msgs => rfl⟩
  · intro msgs e mods hm
    simp [loopStep, redrawGate, hm]
  · intro msgs e d mods hd
    simp [loopStep, hd]

/-- C10 witness: plain 'c' with the period elapsed redraws; a non-key event
with the period elapsed redraws; 'x' skips the gate even with the period
elapsed; Render with the period not elapsed does not redraw. -/
theorem c10_witness :
    (KeyModifiers.NONE ≠ KeyModifiers.CONTROL ∧
        loopStep [] (Event.Input (CEvent.Key ⟨KeyCode.Char 'c', KeyModifiers.NONE⟩)) true
          = StepOutcome.running [] true) ∧
      loopStep [] (Event.Input CEvent.OtherC) true = StepOutcome.running [] true ∧
      ('x' ≠ 'c' ∧
        loopStep [] (Event.Input (CEvent.Key ⟨KeyCode.Char 'x', KeyModifiers.NONE⟩)) true
          = StepOutcome.running [] false) ∧
      loopStep [] Event.Render false = StepOutcome.running [] false :=
  ⟨⟨by decide, c10_redraw_fallthrough.1 [] true KeyModifiers.NONE (by decide)⟩,
    c10_redraw_fallthrough.2.1 [] true,
    ⟨by decide, c10_redraw_fallthrough.2.2.1 [] true 'x' KeyModifiers.NONE (by decide)⟩,
    c10_redraw_fallthrough.2.2.2 []⟩

end TwitchChatTui

